import Mathlib

/-!
Verification development for the ACME DNS-01 issuance plugin
(`lemur/plugins/lemur_acme/plugin.py`).

The Python module is shallowly embedded: each external collaborator (the
ACME CA client, the DNS provider module, the authorization / dns-provider
services, the Flask app config) is modelled as a record of pure oracle
functions returning `Except Err`, and every embedded function returns the
list of externally visible calls it performed (its trace) together with
its outcome.  A Python exception is an `Except.error`; a `try/except`
clause is a `match` on the error constructor; a `try/finally` runs both
parts and lets an error from the `finally` part replace the original one,
exactly as Python does.
-/

deriving instance DecidableEq for Except

namespace LemurAcme

/-- Python exception classes relevant to the module, one constructor per
class the code raises or catches. -/
inductive Err
  | valueError (msg : String)
  | clientError
  | acmeError
  | pollError
  | invalidAuthority (msg : String)
  | invalidConfiguration (msg : String)
  | unknownProvider (msg : String)
  | jsonDecodeError
  | importError
  | caError (msg : String)
  deriving Repr, DecidableEq

/-- ACME challenge kinds (`acme.challenges`). -/
inductive ChallengeType
  | dns01
  | http01
  | tlsalpn01
  deriving Repr, DecidableEq

/-- A challenge body offered by the CA (`combo[0]` with its `.chall`). -/
structure Challenge where
  chall_type : ChallengeType
  token : String
  deriving Repr, DecidableEq

/-- A CA authorization response; `combos` is `authz.body.resolved_combinations`. -/
structure Authz where
  combos : List (List Challenge)
  deriving Repr, DecidableEq

/-- The ACME account session: the fresh JWK the client was built with. -/
structure Session where
  key : String
  deriving Repr, DecidableEq

/-- `AuthorizationRecord` from the source, one per domain. -/
structure AuthorizationRecord where
  host : String
  authz : Authz
  dns_challenge : Challenge
  change_id : String
  deriving Repr, DecidableEq

/-- Externally visible calls made by the embedded code, in order. -/
inductive Event
  | caConnect (directory_url : Option String)
  | caRegister (email : Option String)
  | caAgreeTos (uri : String)
  | importProvider (provider_type : String)
  | requestChallenges (host : String)
  | createTxt (name value : String) (account : Option String)
  | waitDns (change_id : String) (account : Option String)
  | answerChallenge (token : String)
  | deleteTxt (change_id : String) (account : Option String) (name value : String)
  | authzCreate (account : Option String) (domains : List String) (provider_type : String)
  | pollIssuance (csr : String)
  | fetchChain
  deriving Repr, DecidableEq

/-- Modelled from the acme library: `DNS01.validation_domain_name(host)`. -/
def validation_domain_name (chall : Challenge) (host : String) : String :=
  "_acme-challenge." ++ host

/-- Modelled from the acme library: `DNS01.validation(key)`, the key
authorization digest for the account key. -/
def validation (chall : Challenge) (key : String) : String :=
  chall.token ++ "." ++ key

/-- `find_dns_challenge(authz)`: yields `combo[0]` for every resolved
combination that is a single DNS-01 challenge. -/
def find_dns_challenge (authz : Authz) : List Challenge :=
  authz.combos.filterMap fun combo =>
    match combo with
    | [c] => if c.chall_type == ChallengeType.dns01 then some c else none
    | _ => none

/-- A combination that is exactly one DNS-01 challenge (the spec's
"single-element DNS-01 combination"). -/
def isSingleDns01Combo (combo : List Challenge) : Bool :=
  match combo with
  | [c] => c.chall_type == ChallengeType.dns01
  | _ => false

/-- Python destructuring `[x] = iterable`: succeeds exactly on a
one-element sequence, raises ValueError otherwise. -/
def unpack_single (xs : List Challenge) : Except Err Challenge :=
  match xs with
  | [x] => .ok x
  | [] => .error (.valueError "not enough values to unpack")
  | _ => .error (.valueError "too many values to unpack")

/-- `True` on `Except.ok`. -/
def exceptIsOk {α : Type} (r : Except Err α) : Bool :=
  match r with
  | .ok _ => true
  | .error _ => false

/-- Oracle for the ACME CA client (`acme.client.Client` plus the local
signature computations done with the account key). -/
structure CAOracle where
  fresh_key : String
  connect : Option String → Except Err Unit
  register : Option String → Except Err String
  agree_to_tos : String → Except Err Unit
  request_domain_challenges : String → Except Err Authz
  answer_challenge : Challenge → Except Err Unit
  poll_and_request_issuance : String → List Authz → Except Err String
  fetch_chain : Except Err (List String)
  simple_verify : Challenge → String → String → Bool

/-- Oracle for a DNS provider module (`cloudflare` / `dyn` / `route53`). -/
structure DnsOracle where
  create_txt_record : String → String → Option String → Except Err String
  wait_for_dns_change : String → Option String → Except Err Unit
  delete_txt_record : String → Option String → String → String → Except Err Unit

/-- Flask app configuration values the module reads. -/
structure AppConfig where
  acme_email : Option String
  acme_tel : Option String
  acme_directory_url : Option String

/-- The state of `authority.options`: unset/empty (falsy), a string that
`json.loads` rejects, or a parsed list of name/value pairs (a pair whose
"value" key is absent stores `none`). -/
inductive AuthorityOptions
  | unset
  | malformed
  | parsed (opts : List (String × Option String))
  deriving Repr, DecidableEq

/-- An authority row, reduced to the field the module reads. -/
structure Authority where
  options : AuthorityOptions
  deriving Repr, DecidableEq

/-- What `authorization_service.get(external_id)` returns. -/
structure OrderInfo where
  account_number : Option String
  domains : List String
  deriving Repr, DecidableEq

/-- A DNS provider row (`dns_provider_service.get`); `credentials` models
the already-`json.loads`-ed credentials object. -/
structure DnsProviderConfig where
  provider_type : String
  name : String
  credentials : List (String × String)
  deriving Repr, DecidableEq

/-- Oracles for the external lemur services the module calls. -/
structure Services where
  authorization_get : String → Except Err OrderInfo
  authorization_create : Option String → List String → String → Except Err Nat
  dns_provider_get : Nat → Except Err DnsProviderConfig

/-- All external collaborators bundled; `import_provider` models
`__import__(provider_type, ...)`. -/
structure World where
  config : AppConfig
  ca : CAOracle
  dns : DnsOracle
  services : Services
  import_provider : String → Except Err Unit

/-- A pending-certificate row, reduced to the fields the module reads. -/
structure PendingCert where
  name : String
  external_id : String
  dns_provider_id : Nat
  csr : String
  authority : Authority
  deriving Repr, DecidableEq

/-- The `names` list under `extensions['sub_alt_names']`. -/
structure SubAltNames where
  names : List String
  deriving Repr, DecidableEq

/-- The `extensions` sub-dict of the issuer options. -/
structure Extensions where
  sub_alt_names : SubAltNames
  deriving Repr, DecidableEq

/-- The `issuer_options` dict passed to `create_certificate` /
`get_domains`, reduced to the keys the module reads; `none` models an
absent (or falsy) key. -/
structure IssuerOptions where
  authority : Authority
  create_immediately : Bool
  dns_provider : Option DnsProviderConfig
  common_name : String
  extensions : Option Extensions
  deriving Repr, DecidableEq

/-- The cert dict built by the facade methods. -/
structure Cert where
  body : String
  chain : String
  external_id : String
  deriving Repr, DecidableEq

/-- One batch outcome record: `cert` is `none` for the `False` marker. -/
structure Outcome where
  cert : Option Cert
  pending_cert : PendingCert
  deriving Repr, DecidableEq

/-- Python `dict.get(k, default)` over a dict built by inserting the
pairs in order (later pairs overwrite earlier ones); a key stored with a
null value returns that null, not the default. -/
def dictGet (opts : List (String × Option String)) (k : String)
    (default : Option String) : Option String :=
  match opts.reverse.find? (fun p => p.1 == k) with
  | some p => p.2
  | none => default

/-- `credentials.get(k)` on the parsed credentials object. -/
def lookupStr (credentials : List (String × String)) (k : String) : Option String :=
  (credentials.find? (fun p => p.1 == k)).map (fun p => p.2)

/-- Python falsiness of an optional string (`not account_number`). -/
def isFalsy : Option String → Bool
  | none => true
  | some s => s.isEmpty

/-- `"\n".join(str(x).splitlines())` as the module applies it to PEM text. -/
def joinLines (s : String) : String :=
  String.intercalate "\n" (s.splitOn "\n")

/-- `start_dns_challenge(acme_client, account_number, host, dns_provider)`:
request the domain challenges, destructure the unique DNS-01 challenge,
create the TXT record and build the `AuthorizationRecord`. -/
def start_dns_challenge (ca : CAOracle) (session : Session) (account_number : Option String)
    (host : String) (dns_provider : DnsOracle) :
    List Event × Except Err AuthorizationRecord :=
  match ca.request_domain_challenges host with
  | .error e => ([.requestChallenges host], .error e)
  | .ok authz =>
    match unpack_single (find_dns_challenge authz) with
    | .error e => ([.requestChallenges host], .error e)
    | .ok dns_challenge =>
      let name := validation_domain_name dns_challenge host
      let value := validation dns_challenge session.key
      match dns_provider.create_txt_record name value account_number with
      | .error e => ([.requestChallenges host, .createTxt name value account_number], .error e)
      | .ok change_id =>
        ([.requestChallenges host, .createTxt name value account_number],
         .ok ⟨host, authz, dns_challenge, change_id⟩)

/-- `complete_dns_challenge(acme_client, account_number, authz_record,
dns_provider)`: wait for propagation, locally verify the recomputed
response (raising ValueError on mismatch), then answer the challenge. -/
def complete_dns_challenge (ca : CAOracle) (session : Session) (account_number : Option String)
    (authz_record : AuthorizationRecord) (dns_provider : DnsOracle) :
    List Event × Except Err Unit :=
  match dns_provider.wait_for_dns_change authz_record.change_id account_number with
  | .error e => ([.waitDns authz_record.change_id account_number], .error e)
  | .ok _ =>
    let verified := ca.simple_verify authz_record.dns_challenge authz_record.host session.key
    if !verified then
      ([.waitDns authz_record.change_id account_number],
       .error (.valueError "Failed verification"))
    else
      match ca.answer_challenge authz_record.dns_challenge with
      | .error e =>
        ([.waitDns authz_record.change_id account_number,
          .answerChallenge authz_record.dns_challenge.token], .error e)
      | .ok _ =>
        ([.waitDns authz_record.change_id account_number,
          .answerChallenge authz_record.dns_challenge.token], .ok ())

/-- `request_certificate(acme_client, authorizations, csr)`: poll for
issuance, fetch the chain and join it with newlines. -/
def request_certificate (ca : CAOracle) (authorizations : List AuthorizationRecord)
    (csr : String) : List Event × Except Err (String × String) :=
  match ca.poll_and_request_issuance csr (authorizations.map (fun a => a.authz)) with
  | .error e => ([.pollIssuance csr], .error e)
  | .ok pem_certificate =>
    match ca.fetch_chain with
    | .error e => ([.pollIssuance csr, .fetchChain], .error e)
    | .ok full_chain =>
      ([.pollIssuance csr, .fetchChain],
       .ok (pem_certificate, String.intercalate "\n" full_chain))

/-- `setup_acme_client(authority)`: reject unset options, parse the JSON
option list into a dict, read email / telephone / directory URL with app
config fallbacks, connect, register and agree to the terms of service. -/
def setup_acme_client (cfg : AppConfig) (ca : CAOracle) (authority : Authority) :
    List Event × Except Err Session :=
  match authority.options with
  | .unset => ([], .error (.invalidAuthority "Invalid authority. Options not set"))
  | .malformed => ([], .error .jsonDecodeError)
  | .parsed opts =>
    let email := dictGet opts "email" cfg.acme_email
    let tel := dictGet opts "telephone" cfg.acme_tel
    let directory_url := dictGet opts "acme_url" cfg.acme_directory_url
    match ca.connect directory_url with
    | .error e => ([.caConnect directory_url], .error e)
    | .ok _ =>
      match ca.register email with
      | .error e => ([.caConnect directory_url, .caRegister email], .error e)
      | .ok uri =>
        match ca.agree_to_tos uri with
        | .error e =>
          ([.caConnect directory_url, .caRegister email, .caAgreeTos uri], .error e)
        | .ok _ =>
          ([.caConnect directory_url, .caRegister email, .caAgreeTos uri],
           .ok ⟨ca.fresh_key⟩)

/-- `get_domains(options)`: the common name followed by the subject
alternative names appended in their given order. -/
def get_domains (options : IssuerOptions) : List String :=
  let domains := [options.common_name]
  match options.extensions with
  | some ext => ext.sub_alt_names.names.foldl (fun ds name => ds ++ [name]) domains
  | none => domains

/-- `get_authorizations(acme_client, account_number, domains,
dns_provider)`: one `start_dns_challenge` per domain, in order, aborting
on the first error. -/
def get_authorizations (ca : CAOracle) (session : Session) (account_number : Option String)
    (dns_provider : DnsOracle) :
    List String → List Event × Except Err (List AuthorizationRecord)
  | [] => ([], .ok [])
  | domain :: rest =>
    match start_dns_challenge ca session account_number domain dns_provider with
    | (t, .error e) => (t, .error e)
    | (t, .ok authz_record) =>
      match get_authorizations ca session account_number dns_provider rest with
      | (trest, .error e) => (t ++ trest, .error e)
      | (trest, .ok records) => (t ++ trest, .ok (authz_record :: records))

/-- The `try` part of `finalize_authorizations`: the per-record
`complete_dns_challenge` loop, aborting on the first error. -/
def complete_loop (ca : CAOracle) (session : Session) (account_number : Option String)
    (dns_provider : DnsOracle) :
    List AuthorizationRecord → List Event × Except Err Unit
  | [] => ([], .ok ())
  | authz_record :: rest =>
    match complete_dns_challenge ca session account_number authz_record dns_provider with
    | (t, .error e) => (t, .error e)
    | (t, .ok _) =>
      match complete_loop ca session account_number dns_provider rest with
      | (trest, r) => (t ++ trest, r)

/-- The `finally` part of `finalize_authorizations`: the per-record
`delete_txt_record` loop.  There is no per-iteration exception handler in
the source, so a raising deletion aborts the loop. -/
def cleanup_loop (session : Session) (account_number : Option String)
    (dns_provider : DnsOracle) :
    List AuthorizationRecord → List Event × Except Err Unit
  | [] => ([], .ok ())
  | authz_record :: rest =>
    let dns_challenge := authz_record.dns_challenge
    let name := validation_domain_name dns_challenge authz_record.host
    let value := validation dns_challenge session.key
    match dns_provider.delete_txt_record authz_record.change_id account_number name value with
    | .error e => ([.deleteTxt authz_record.change_id account_number name value], .error e)
    | .ok _ =>
      match cleanup_loop session account_number dns_provider rest with
      | (trest, r) => (.deleteTxt authz_record.change_id account_number name value :: trest, r)

/-- `finalize_authorizations(acme_client, account_number, dns_provider,
authorizations)`: run the challenge loop under a `try/finally` whose
`finally` deletes the TXT records; per Python semantics an error raised
by the `finally` part replaces the original error, otherwise the
original error (if any) propagates after cleanup; on success the same
`authorizations` list is returned. -/
def finalize_authorizations (ca : CAOracle) (session : Session)
    (account_number : Option String) (dns_provider : DnsOracle)
    (authorizations : List AuthorizationRecord) :
    List Event × Except Err (List AuthorizationRecord) :=
  match complete_loop ca session account_number dns_provider authorizations with
  | (t1, res1) =>
    match cleanup_loop session account_number dns_provider authorizations with
    | (t2, res2) =>
      (t1 ++ t2,
       match res2 with
       | .error e => .error e
       | .ok _ =>
         match res1 with
         | .error e => .error e
         | .ok _ => .ok authorizations)

/-- `ACMEIssuerPlugin.get_dns_provider(type)`: the static registry lookup
(cloudflare / dyn / route53), raising UnknownProvider otherwise.  The
module object it returns is modelled by the world's single `DnsOracle`,
so the embedding returns unit on success. -/
def get_dns_provider (t : String) : Except Err Unit :=
  if t == "cloudflare" || t == "dyn" || t == "route53" then .ok ()
  else .error (.unknownProvider ("No such DNS provider: " ++ t))

/-- `ACMEIssuerPlugin.get_ordered_certificate(pending_cert)`: the
single-item pipeline.  Only the `get_authorizations` call sits inside a
`try/except ClientError` that returns `False` (here `.ok none`); every
other exception, at every stage, propagates. -/
def get_ordered_certificate (w : World) (pending_cert : PendingCert) :
    List Event × Except Err (Option Cert) :=
  match setup_acme_client w.config w.ca pending_cert.authority with
  | (t0, .error e) => (t0, .error e)
  | (t0, .ok session) =>
    match w.services.authorization_get pending_cert.external_id with
    | .error e => (t0, .error e)
    | .ok order_info =>
      match w.services.dns_provider_get pending_cert.dns_provider_id with
      | .error e => (t0, .error e)
      | .ok dns_provider =>
        match get_dns_provider dns_provider.provider_type with
        | .error e => (t0, .error e)
        | .ok _ =>
          match get_authorizations w.ca session order_info.account_number w.dns
              order_info.domains with
          | (t1, .error .clientError) => (t0 ++ t1, .ok none)
          | (t1, .error e) => (t0 ++ t1, .error e)
          | (t1, .ok authorizations) =>
            match finalize_authorizations w.ca session order_info.account_number w.dns
                authorizations with
            | (t2, .error e) => (t0 ++ t1 ++ t2, .error e)
            | (t2, .ok authorizations) =>
              match request_certificate w.ca authorizations pending_cert.csr with
              | (t3, .error e) => (t0 ++ t1 ++ t2 ++ t3, .error e)
              | (t3, .ok (pem_certificate, pem_certificate_chain)) =>
                (t0 ++ t1 ++ t2 ++ t3,
                 .ok (some ⟨joinLines pem_certificate, joinLines pem_certificate_chain,
                            pending_cert.external_id⟩))

/-- One work item of the batch pipeline (the dict appended to `pending`). -/
structure BatchEntry where
  session : Session
  account_number : Option String
  authorizations : List AuthorizationRecord
  pending_cert : PendingCert
  deriving Repr, DecidableEq

/-- The body of the first `try` block of `get_ordered_certificates`:
session setup, service lookups, provider resolution and orchestration for
one pending certificate. -/
def orchestrate_pending (w : World) (pending_cert : PendingCert) :
    List Event × Except Err BatchEntry :=
  match setup_acme_client w.config w.ca pending_cert.authority with
  | (t0, .error e) => (t0, .error e)
  | (t0, .ok session) =>
    match w.services.authorization_get pending_cert.external_id with
    | .error e => (t0, .error e)
    | .ok order_info =>
      match w.services.dns_provider_get pending_cert.dns_provider_id with
      | .error e => (t0, .error e)
      | .ok dns_provider =>
        match get_dns_provider dns_provider.provider_type with
        | .error e => (t0, .error e)
        | .ok _ =>
          match get_authorizations w.ca session order_info.account_number w.dns
              order_info.domains with
          | (t1, .error e) => (t0 ++ t1, .error e)
          | (t1, .ok authorizations) =>
            (t0 ++ t1,
             .ok ⟨session, order_info.account_number, authorizations, pending_cert⟩)

/-- The first `for` loop of `get_ordered_certificates`: each item is
orchestrated under `except (ClientError, ValueError, Exception)`, which
catches every exception, turning a failure into a `cert: False` outcome
while successful items are queued for phase two. -/
def orchestrate_loop (w : World) :
    List PendingCert → List Event × List BatchEntry × List Outcome
  | [] => ([], [], [])
  | pending_cert :: rest =>
    match orchestrate_pending w pending_cert with
    | (t, r) =>
      match orchestrate_loop w rest with
      | (trest, prest, crest) =>
        match r with
        | .ok entry => (t ++ trest, entry :: prest, crest)
        | .error _ => (t ++ trest, prest, ⟨none, pending_cert⟩ :: crest)

/-- The body of the second `try` block of `get_ordered_certificates`:
finalize the entry's authorizations and request the certificate. -/
def finalize_entry (w : World) (entry : BatchEntry) : List Event × Except Err Cert :=
  match finalize_authorizations w.ca entry.session entry.account_number w.dns
      entry.authorizations with
  | (t2, .error e) => (t2, .error e)
  | (t2, .ok authorizations) =>
    match request_certificate w.ca authorizations entry.pending_cert.csr with
    | (t3, .error e) => (t2 ++ t3, .error e)
    | (t3, .ok (pem_certificate, pem_certificate_chain)) =>
      (t2 ++ t3,
       .ok ⟨joinLines pem_certificate, joinLines pem_certificate_chain,
            entry.pending_cert.external_id⟩)

/-- The second `for` loop of `get_ordered_certificates`: each queued
entry is finalized under `except (PollError, AcmeError, Exception)`,
which catches every exception, so every entry yields exactly one
outcome. -/
def finalize_loop (w : World) : List BatchEntry → List Event × List Outcome
  | [] => ([], [])
  | entry :: rest =>
    match finalize_entry w entry with
    | (t, r) =>
      match finalize_loop w rest with
      | (trest, crest) =>
        match r with
        | .ok cert => (t ++ trest, ⟨some cert, entry.pending_cert⟩ :: crest)
        | .error _ => (t ++ trest, ⟨none, entry.pending_cert⟩ :: crest)

/-- `ACMEIssuerPlugin.get_ordered_certificates(pending_certs)`: the
two-phase batch pipeline; phase-one failure outcomes precede all
phase-two outcomes, as in the source's `certs` list. -/
def get_ordered_certificates (w : World) (pending_certs : List PendingCert) :
    List Event × List Outcome :=
  match orchestrate_loop w pending_certs with
  | (t1, pending, certs1) =>
    match finalize_loop w pending with
    | (t2, certs2) => (t1 ++ t2, certs1 ++ certs2)

/-- The `authz_domains` flattening loop of `create_certificate`; every
domain in the embedding is already a plain string, so each iteration
takes the `type(d) == str` branch. -/
def flatten_domains (domains : List String) : List String :=
  domains.foldl (fun authz_domains d => authz_domains ++ [d]) []

/-- `ACMEIssuerPlugin.create_certificate(csr, issuer_options)`: set up
the ACME client, require a DNS provider, import its module, check the
route53 account number, then either create a deferred authorization
record (`create_immediately` falsy) or run the full pipeline. -/
def create_certificate (w : World) (csr : String) (issuer_options : IssuerOptions) :
    List Event × Except Err (Option String × Option String × Option Nat) :=
  let authority := issuer_options.authority
  let create_immediately := issuer_options.create_immediately
  match setup_acme_client w.config w.ca authority with
  | (t0, .error e) => (t0, .error e)
  | (t0, .ok session) =>
    match issuer_options.dns_provider with
    | none =>
      (t0, .error (.invalidConfiguration
        "DNS Provider setting is required for ACME certificates."))
    | some dns_provider =>
      let credentials := dns_provider.credentials
      match w.import_provider dns_provider.provider_type with
      | .error e => (t0 ++ [.importProvider dns_provider.provider_type], .error e)
      | .ok _ =>
        let account_number := lookupStr credentials "account_id"
        if dns_provider.provider_type == "route53" && isFalsy account_number then
          (t0 ++ [.importProvider dns_provider.provider_type],
           .error (.invalidConfiguration
             ("Route53 DNS Provider " ++ dns_provider.name ++
              " does not have an account number configured.")))
        else
          let domains := get_domains issuer_options
          if !create_immediately then
            let authz_domains := flatten_domains domains
            match w.services.authorization_create account_number authz_domains
                dns_provider.provider_type with
            | .error e =>
              (t0 ++ [.importProvider dns_provider.provider_type,
                      .authzCreate account_number authz_domains dns_provider.provider_type],
               .error e)
            | .ok dns_authorization_id =>
              (t0 ++ [.importProvider dns_provider.provider_type,
                      .authzCreate account_number authz_domains dns_provider.provider_type],
               .ok (none, none, some dns_authorization_id))
          else
            match get_authorizations w.ca session account_number w.dns domains with
            | (t1, .error e) =>
              (t0 ++ [.importProvider dns_provider.provider_type] ++ t1, .error e)
            | (t1, .ok authorizations) =>
              match finalize_authorizations w.ca session account_number w.dns
                  authorizations with
              | (t2, .error e) =>
                (t0 ++ [.importProvider dns_provider.provider_type] ++ t1 ++ t2, .error e)
              | (t2, .ok authorizations) =>
                match request_certificate w.ca authorizations csr with
                | (t3, .error e) =>
                  (t0 ++ [.importProvider dns_provider.provider_type] ++ t1 ++ t2 ++ t3,
                   .error e)
                | (t3, .ok (pem_certificate, pem_certificate_chain)) =>
                  (t0 ++ [.importProvider dns_provider.provider_type] ++ t1 ++ t2 ++ t3,
                   .ok (some pem_certificate, some pem_certificate_chain, none))

/-- The cleanup event `finalize_authorizations` is expected to emit for a
record: deletion keyed by the change id with the recomputed validation
domain name and validation value. -/
def delete_event (session : Session) (account_number : Option String)
    (r : AuthorizationRecord) : Event :=
  .deleteTxt r.change_id account_number
    (validation_domain_name r.dns_challenge r.host)
    (validation r.dns_challenge session.key)

/-- Recognizes TXT-record deletion events. -/
def isDeleteEvent : Event → Bool
  | .deleteTxt _ _ _ _ => true
  | _ => false

/-- Recognizes TXT-record creation events. -/
def isCreateTxtEvent : Event → Bool
  | .createTxt _ _ _ => true
  | _ => false

/-- Recognizes authorization-service creation events. -/
def isAuthzCreateEvent : Event → Bool
  | .authzCreate _ _ _ => true
  | _ => false

/-- Recognizes CA registration events. -/
def isCARegisterEvent : Event → Bool
  | .caRegister _ => true
  | _ => false

/-- Recognizes every DNS-challenge / record / issuance side effect:
challenge requests and answers, TXT record operations, propagation
waits, issuance polling and chain fetches. -/
def isOrchestrationEvent : Event → Bool
  | .requestChallenges _ => true
  | .createTxt _ _ _ => true
  | .waitDns _ _ => true
  | .answerChallenge _ => true
  | .deleteTxt _ _ _ _ => true
  | .pollIssuance _ => true
  | .fetchChain => true
  | _ => false

/-- Appending elements one by one onto an accumulator is list append. -/
theorem foldl_append_singleton (l : List String) :
    ∀ acc : List String, l.foldl (fun ds n => ds ++ [n]) acc = acc ++ l := by
  induction l with
  | nil => intro acc; simp
  | cons x xs ih =>
    intro acc
    simp only [List.foldl_cons, ih (acc ++ [x]), List.append_assoc,
      List.singleton_append]

/-- `flatten_domains` keeps the domain list intact. -/
theorem flatten_domains_eq (domains : List String) :
    flatten_domains domains = domains := by
  simpa [flatten_domains] using foldl_append_singleton domains []

/-- `find_dns_challenge` yields one challenge per single-element DNS-01
combination, so its length counts those combinations. -/
theorem find_dns_challenge_length (authz : Authz) :
    (find_dns_challenge authz).length = authz.combos.countP isSingleDns01Combo := by
  unfold find_dns_challenge
  induction authz.combos with
  | nil => simp
  | cons combo rest ih =>
    match combo with
    | [] => simpa [List.countP_cons, isSingleDns01Combo] using ih
    | [c] =>
      cases h : c.chall_type == ChallengeType.dns01 with
      | false =>
        have h2 : ¬ c.chall_type = ChallengeType.dns01 := by simpa using h
        simpa [List.countP_cons, isSingleDns01Combo, h, h2] using ih
      | true =>
        have h2 : c.chall_type = ChallengeType.dns01 := by simpa using h
        simpa [List.countP_cons, isSingleDns01Combo, h, h2] using ih
    | c :: c2 :: cs => simpa [List.countP_cons, isSingleDns01Combo] using ih

/-- The challenge-completion phase performs no TXT-record deletions. -/
theorem complete_dns_challenge_no_delete (ca : CAOracle) (session : Session)
    (account_number : Option String) (authz_record : AuthorizationRecord)
    (dns_provider : DnsOracle) :
    (complete_dns_challenge ca session account_number authz_record dns_provider).1.filter
      isDeleteEvent = [] := by
  unfold complete_dns_challenge
  rcases hw : dns_provider.wait_for_dns_change authz_record.change_id account_number with e | u
  · simp [hw, isDeleteEvent]
  · rcases hv : ca.simple_verify authz_record.dns_challenge authz_record.host session.key with _ | _
    · simp [hw, hv, isDeleteEvent]
    · rcases ha : ca.answer_challenge authz_record.dns_challenge with e | u
      · simp [hw, hv, ha, isDeleteEvent]
      · simp [hw, hv, ha, isDeleteEvent]

/-- The whole challenge loop performs no TXT-record deletions, whatever
its outcome. -/
theorem complete_loop_no_delete (ca : CAOracle) (session : Session)
    (account_number : Option String) (dns_provider : DnsOracle) :
    ∀ rs : List AuthorizationRecord,
      (complete_loop ca session account_number dns_provider rs).1.filter
        isDeleteEvent = [] := by
  intro rs
  induction rs with
  | nil => simp [complete_loop]
  | cons r rest ih =>
    unfold complete_loop
    rcases hc : complete_dns_challenge ca session account_number r dns_provider with ⟨t, res⟩
    have ht : t.filter isDeleteEvent = [] := by
      have := complete_dns_challenge_no_delete ca session account_number r dns_provider
      rw [hc] at this
      exact this
    rcases res with e | u
    · simpa using ht
    · rcases hrest : complete_loop ca session account_number dns_provider rest with ⟨trest, r2⟩
      have htr : trest.filter isDeleteEvent = [] := by
        rw [hrest] at ih
        exact ih
      simp [List.filter_append, ht, htr]

/-- When no deletion raises, the cleanup loop deletes each record exactly
once, in order, with the recomputed validation name and value. -/
theorem cleanup_loop_all_ok (session : Session) (account_number : Option String)
    (dns_provider : DnsOracle) :
    ∀ rs : List AuthorizationRecord,
      (∀ r ∈ rs, dns_provider.delete_txt_record r.change_id account_number
          (validation_domain_name r.dns_challenge r.host)
          (validation r.dns_challenge session.key) = .ok ()) →
      cleanup_loop session account_number dns_provider rs
        = (rs.map (delete_event session account_number), .ok ()) := by
  intro rs
  induction rs with
  | nil => intro _; simp [cleanup_loop]
  | cons r rest ih =>
    intro h
    have hr := h r (List.mem_cons_self r rest)
    have hrest := ih (fun x hx => h x (List.mem_cons_of_mem r hx))
    simp [cleanup_loop, hr, hrest, delete_event]

/-- Every event emitted by `setup_acme_client` is a CA-setup event: the
session factory performs no DNS, challenge, issuance or
authorization-service calls. -/
theorem setup_acme_client_trace_ca_only (cfg : AppConfig) (ca : CAOracle) (a : Authority) :
    ∀ ev ∈ (setup_acme_client cfg ca a).1,
      isOrchestrationEvent ev = false ∧ isAuthzCreateEvent ev = false := by
  rcases a with ⟨opts⟩
  unfold setup_acme_client
  cases opts with
  | unset => simp
  | malformed => simp
  | parsed l =>
    rcases hc : ca.connect (dictGet l "acme_url" cfg.acme_directory_url) with e | u
    · simp [hc, isOrchestrationEvent, isAuthzCreateEvent]
    · rcases hr : ca.register (dictGet l "email" cfg.acme_email) with e | uri
      · simp [hc, hr, isOrchestrationEvent, isAuthzCreateEvent]
      · rcases ha : ca.agree_to_tos uri with e | u2
        · simp [hc, hr, ha, isOrchestrationEvent, isAuthzCreateEvent]
        · simp [hc, hr, ha, isOrchestrationEvent, isAuthzCreateEvent]

/-!
Concrete fixtures used by witnesses and counterexamples: trivially
successful oracles, plus targeted failing variants.
-/

/-- A CA oracle whose every call succeeds. -/
def okCA : CAOracle where
  fresh_key := "k"
  connect := fun _ => .ok ()
  register := fun _ => .ok "reg-uri"
  agree_to_tos := fun _ => .ok ()
  request_domain_challenges := fun _ => .ok ⟨[[⟨.dns01, "tok"⟩]]⟩
  answer_challenge := fun _ => .ok ()
  poll_and_request_issuance := fun _ _ => .ok "CERTPEM"
  fetch_chain := .ok ["CHAIN1", "CHAIN2"]
  simple_verify := fun _ _ _ => true

/-- A DNS oracle whose every call succeeds. -/
def okDns : DnsOracle where
  create_txt_record := fun _ _ _ => .ok "chg"
  wait_for_dns_change := fun _ _ => .ok ()
  delete_txt_record := fun _ _ _ _ => .ok ()

/-- Service oracles whose every call succeeds. -/
def okServices : Services where
  authorization_get := fun _ => .ok ⟨some "123", ["example.com"]⟩
  authorization_create := fun _ _ _ => .ok 42
  dns_provider_get := fun _ => .ok ⟨"cloudflare", "cf", []⟩

/-- App config with a fallback directory URL and no default contacts. -/
def okConfig : AppConfig where
  acme_email := none
  acme_tel := none
  acme_directory_url := some "https://fallback.example/dir"

/-- A fully cooperative world. -/
def okWorld : World where
  config := okConfig
  ca := okCA
  dns := okDns
  services := okServices
  import_provider := fun _ => .ok ()

/-- An authority whose options carry a directory URL and an email. -/
def okAuthority : Authority :=
  ⟨.parsed [("acme_url", some "https://ca.example/dir"), ("email", some "a@b.com")]⟩

/-- First sample authorization record. -/
def recA : AuthorizationRecord :=
  ⟨"a.example.com", ⟨[[⟨.dns01, "ta"⟩]]⟩, ⟨.dns01, "ta"⟩, "c1"⟩

/-- Second sample authorization record. -/
def recB : AuthorizationRecord :=
  ⟨"b.example.com", ⟨[[⟨.dns01, "tb"⟩]]⟩, ⟨.dns01, "tb"⟩, "c2"⟩

/-- A DNS oracle whose deletion raises on change id "c1" and succeeds on
everything else. -/
def dnsDeleteFails : DnsOracle where
  create_txt_record := fun _ _ _ => .ok "chg"
  wait_for_dns_change := fun _ _ => .ok ()
  delete_txt_record := fun cid _ _ _ => if cid == "c1" then .error .clientError else .ok ()

/-- A CA oracle whose local challenge verification always fails. -/
def caVerifyFails : CAOracle :=
  { okCA with simple_verify := fun _ _ _ => false }

/-!
Claim C1 — cleanup of TXT records by `finalize_authorizations`.
-/

/-- C1 (counterexample): with two `AuthorizationRecord`s and a DNS
provider whose deletion of the first record's TXT record raises, the
cleanup loop stops: only one deletion (the first record's) is ever
attempted, so deletion is NOT attempted for every record when an earlier
record's deletion raised an error. -/
theorem finalize_cleanup_not_best_effort_cex :
    (finalize_authorizations okCA ⟨"k"⟩ (some "123") dnsDeleteFails [recA, recB]).1.filter
        isDeleteEvent
      = [.deleteTxt "c1" (some "123") "_acme-challenge.a.example.com" "ta.k"]
    ∧ [recA, recB].length = 2 := by
  constructor
  · rfl
  · rfl

/-- C1 (amended): for every outcome of the challenge loop (success, local
verification failure or CA submission failure), provided no deletion
itself raises, `delete_txt_record` is invoked exactly once per
`AuthorizationRecord`, in order, with the validation domain name and
validation value recomputed from that record's challenge and host.  (If a
deletion raises, later records are not deleted: the cleanup loop has no
per-record handler.) -/
theorem finalize_cleanup_deletes_each_once (ca : CAOracle) (session : Session)
    (account_number : Option String) (dns_provider : DnsOracle)
    (authorizations : List AuthorizationRecord)
    (hdel : ∀ r ∈ authorizations,
      dns_provider.delete_txt_record r.change_id account_number
        (validation_domain_name r.dns_challenge r.host)
        (validation r.dns_challenge session.key) = .ok ()) :
    (finalize_authorizations ca session account_number dns_provider authorizations).1.filter
        isDeleteEvent
      = authorizations.map (delete_event session account_number) := by
  unfold finalize_authorizations
  rcases h1 : complete_loop ca session account_number dns_provider authorizations with ⟨t1, r1⟩
  have ht1 : t1.filter isDeleteEvent = [] := by
    have := complete_loop_no_delete ca session account_number dns_provider authorizations
    rw [h1] at this
    exact this
  rw [cleanup_loop_all_ok session account_number dns_provider authorizations hdel]
  have hmap : (authorizations.map (delete_event session account_number)).filter isDeleteEvent
      = authorizations.map (delete_event session account_number) := by
    rw [List.filter_eq_self]
    intro ev hev
    rcases List.mem_map.mp hev with ⟨r, _, hr⟩
    rw [← hr]
    rfl
  simp [List.filter_append, ht1, hmap]

/-- C1 (witness): the amended cleanup theorem applied to a concrete
two-record run in which local verification fails. -/
theorem finalize_cleanup_deletes_each_once_witness :
    (finalize_authorizations caVerifyFails ⟨"k"⟩ (some "123") okDns [recA, recB]).1.filter
        isDeleteEvent
      = [recA, recB].map (delete_event ⟨"k"⟩ (some "123")) :=
  finalize_cleanup_deletes_each_once caVerifyFails ⟨"k"⟩ (some "123") okDns [recA, recB]
    (fun r _ => rfl)

/-!
Claim C6 — `finalize_authorizations` re-raises the first
verification/submission error after cleanup completes.
-/

/-- C6 (counterexample): with one record whose local verification fails
AND whose TXT deletion raises, `finalize_authorizations` raises the
deletion error (the Python `finally` replaces the in-flight exception),
not the verification error, although the challenge loop did raise the
verification error. -/
theorem finalize_reraise_cex :
    (complete_loop caVerifyFails ⟨"k"⟩ (some "123") dnsDeleteFails [recA]).2
      = .error (.valueError "Failed verification")
    ∧ (finalize_authorizations caVerifyFails ⟨"k"⟩ (some "123") dnsDeleteFails [recA]).2
      = .error .clientError := by
  constructor
  · rfl
  · rfl

/-- C6 (amended): when the challenge loop raises a verification or
submission error and no TXT deletion itself raises, the overall
`finalize_authorizations` call re-raises exactly that first error, and
only after the cleanup pass has completed (its trace ends with the full
per-record deletion sequence). -/
theorem finalize_reraises_first_error_after_cleanup (ca : CAOracle) (session : Session)
    (account_number : Option String) (dns_provider : DnsOracle)
    (authorizations : List AuthorizationRecord) (e : Err)
    (herr : (complete_loop ca session account_number dns_provider authorizations).2
        = .error e)
    (hdel : ∀ r ∈ authorizations,
      dns_provider.delete_txt_record r.change_id account_number
        (validation_domain_name r.dns_challenge r.host)
        (validation r.dns_challenge session.key) = .ok ()) :
    (finalize_authorizations ca session account_number dns_provider authorizations).2
      = .error e
    ∧ (finalize_authorizations ca session account_number dns_provider authorizations).1
      = (complete_loop ca session account_number dns_provider authorizations).1
        ++ authorizations.map (delete_event session account_number) := by
  unfold finalize_authorizations
  rcases h1 : complete_loop ca session account_number dns_provider authorizations with ⟨t1, r1⟩
  rw [h1] at herr
  simp only at herr
  rw [cleanup_loop_all_ok session account_number dns_provider authorizations hdel]
  subst herr
  exact ⟨rfl, rfl⟩

/-- C6 (witness): the amended theorem applied to a concrete one-record
run whose local verification fails and whose deletions all succeed. -/
theorem finalize_reraises_first_error_after_cleanup_witness :
    (finalize_authorizations caVerifyFails ⟨"k"⟩ (some "123") okDns [recA]).2
      = .error (.valueError "Failed verification")
    ∧ (finalize_authorizations caVerifyFails ⟨"k"⟩ (some "123") okDns [recA]).1
      = (complete_loop caVerifyFails ⟨"k"⟩ (some "123") okDns [recA]).1
        ++ [recA].map (delete_event ⟨"k"⟩ (some "123")) :=
  finalize_reraises_first_error_after_cleanup caVerifyFails ⟨"k"⟩ (some "123") okDns [recA]
    (.valueError "Failed verification") rfl (fun r _ => rfl)

/-!
Claim C10 — `finalize_authorizations` returns its input untouched.
-/

/-- C10: whenever `finalize_authorizations` returns normally it returns
the very list of `AuthorizationRecord`s it was given — so every record's
`host`, `authz`, `dns_challenge` and `change_id` are unchanged.  (On the
raising exit paths nothing is returned, and no field of any record is
ever written by the finalizer.) -/
theorem finalize_authorizations_returns_input (ca : CAOracle) (session : Session)
    (account_number : Option String) (dns_provider : DnsOracle)
    (authorizations l : List AuthorizationRecord)
    (hok : (finalize_authorizations ca session account_number dns_provider
        authorizations).2 = .ok l) :
    l = authorizations := by
  unfold finalize_authorizations at hok
  rcases h1 : complete_loop ca session account_number dns_provider authorizations with ⟨t1, r1⟩
  rcases h2 : cleanup_loop session account_number dns_provider authorizations with ⟨t2, r2⟩
  rw [h1, h2] at hok
  simp only at hok
  rcases r2 with e2 | u2
  · cases hok
  · rcases r1 with e1 | u1
    · cases hok
    · exact (Except.ok.inj hok).symm

/-- C10 (witness): the theorem applied to a concrete successful run. -/
theorem finalize_authorizations_returns_input_witness :
    ([recA, recB] : List AuthorizationRecord) = [recA, recB] :=
  finalize_authorizations_returns_input okCA ⟨"k"⟩ (some "123") okDns [recA, recB]
    [recA, recB] rfl

/-!
Claim C8 — `get_domains` returns the common name followed by the subject
alternative names in order.
-/

/-- C8: for every options mapping, `get_domains` returns exactly the
common name followed by the subject alternative names in their given
order, and exactly the singleton common name when extensions are
absent. -/
theorem get_domains_common_name_then_sans (a : Authority) (ci : Bool)
    (dp : Option DnsProviderConfig) (cn : String) (sans : List String) :
    get_domains ⟨a, ci, dp, cn, some ⟨⟨sans⟩⟩⟩ = [cn] ++ sans
    ∧ get_domains ⟨a, ci, dp, cn, none⟩ = [cn] := by
  constructor
  · simp [get_domains, foldl_append_singleton]
  · simp [get_domains]

/-!
Claim C2 — DNS-01 challenge selection in `start_dns_challenge`.
-/

/-- C2: for every CA authorization response, when the number of resolved
combinations that are a single DNS-01 challenge differs from one,
`start_dns_challenge` raises the deterministic destructuring ValueError
and never creates a TXT record; when exactly one such combination
exists, that challenge is selected — a successful record creation
returns the `AuthorizationRecord` built from it, and any returned
record carries exactly that DNS-01 challenge, the queried host and the
CA's authorization. -/
theorem start_dns_challenge_unique_dns01 (ca : CAOracle) (session : Session)
    (account_number : Option String) (host : String) (dns_provider : DnsOracle)
    (authz : Authz)
    (hreq : ca.request_domain_challenges host = .ok authz) :
    (authz.combos.countP isSingleDns01Combo ≠ 1 →
      (∃ msg, (start_dns_challenge ca session account_number host dns_provider).2
          = .error (.valueError msg))
      ∧ (start_dns_challenge ca session account_number host dns_provider).1.filter
          isCreateTxtEvent = [])
    ∧ (authz.combos.countP isSingleDns01Combo = 1 →
      ∃ c, find_dns_challenge authz = [c]
        ∧ (∀ cid, dns_provider.create_txt_record (validation_domain_name c host)
              (validation c session.key) account_number = .ok cid →
            (start_dns_challenge ca session account_number host dns_provider).2
              = .ok ⟨host, authz, c, cid⟩)
        ∧ ∀ r, (start_dns_challenge ca session account_number host dns_provider).2
              = .ok r →
            r.dns_challenge = c ∧ r.host = host ∧ r.authz = authz) := by
  have hlen := find_dns_challenge_length authz
  constructor
  · intro hne
    have hlne : (find_dns_challenge authz).length ≠ 1 := by rw [hlen]; exact hne
    rcases hf : find_dns_challenge authz with _ | ⟨c, _ | ⟨c2, cs⟩⟩
    · exact ⟨⟨"not enough values to unpack",
          by simp [start_dns_challenge, hreq, hf, unpack_single]⟩,
        by simp [start_dns_challenge, hreq, hf, unpack_single, isCreateTxtEvent]⟩
    · exact absurd (by simp [hf]) hlne
    · exact ⟨⟨"too many values to unpack",
          by simp [start_dns_challenge, hreq, hf, unpack_single]⟩,
        by simp [start_dns_challenge, hreq, hf, unpack_single, isCreateTxtEvent]⟩
  · intro h1
    have hl : (find_dns_challenge authz).length = 1 := by rw [hlen]; exact h1
    obtain ⟨c, hf⟩ := List.length_eq_one.mp hl
    refine ⟨c, hf, ?_, ?_⟩
    · intro cid hcid
      simp [start_dns_challenge, hreq, hf, unpack_single, hcid]
    intro r hr
    simp only [start_dns_challenge, hreq, hf, unpack_single] at hr
    rcases hcr : dns_provider.create_txt_record (validation_domain_name c host)
        (validation c session.key) account_number with e | cid
    · rw [hcr] at hr
      cases hr
    · rw [hcr] at hr
      simp only at hr
      cases Except.ok.inj hr
      exact ⟨rfl, rfl, rfl⟩

/-- A CA oracle that offers no challenge combinations at all. -/
def caZeroCombos : CAOracle :=
  { okCA with request_domain_challenges := fun _ => .ok ⟨[]⟩ }

/-- C2 (witness): the selection theorem applied to a CA response with
zero single-element DNS-01 combinations. -/
theorem start_dns_challenge_unique_dns01_witness :
    (∃ msg, (start_dns_challenge caZeroCombos ⟨"k"⟩ none "example.com" okDns).2
        = .error (.valueError msg))
    ∧ (start_dns_challenge caZeroCombos ⟨"k"⟩ none "example.com" okDns).1.filter
        isCreateTxtEvent = [] :=
  (start_dns_challenge_unique_dns01 caZeroCombos ⟨"k"⟩ none "example.com" okDns ⟨[]⟩
    rfl).1 (by decide)

/-!
Claim C5 — batch isolation in `get_ordered_certificates`.
-/

/-- The outcome the second batch loop records for one queued entry:
the issued cert, or the `False` marker when finalization raises. -/
def phase2_outcome (w : World) (entry : BatchEntry) : Outcome :=
  match (finalize_entry w entry).2 with
  | .ok cert => ⟨some cert, entry.pending_cert⟩
  | .error _ => ⟨none, entry.pending_cert⟩

/-- The first batch loop queues exactly the successfully orchestrated
items and records a `cert: False` outcome for exactly the failed ones,
in input order. -/
theorem orchestrate_loop_outcomes (w : World) :
    ∀ pcs : List PendingCert,
      (orchestrate_loop w pcs).2.1
          = pcs.filterMap (fun pc => (orchestrate_pending w pc).2.toOption)
      ∧ (orchestrate_loop w pcs).2.2
          = (pcs.filter (fun pc => !exceptIsOk (orchestrate_pending w pc).2)).map
              (fun pc => ⟨none, pc⟩) := by
  intro pcs
  induction pcs with
  | nil => simp [orchestrate_loop]
  | cons pc rest ih =>
    rcases ho : orchestrate_pending w pc with ⟨t, r⟩
    rcases hrest : orchestrate_loop w rest with ⟨trest, prest, crest⟩
    rw [hrest] at ih
    simp only at ih
    rcases r with e | entry
    · simp [orchestrate_loop, ho, hrest, ih.1, ih.2, exceptIsOk, Except.toOption,
        List.filterMap_cons, List.filter_cons]
    · simp [orchestrate_loop, ho, hrest, ih.1, ih.2, exceptIsOk, Except.toOption,
        List.filterMap_cons, List.filter_cons]

/-- The second batch loop records exactly one outcome per queued entry,
in order. -/
theorem finalize_loop_outcomes (w : World) :
    ∀ entries : List BatchEntry,
      (finalize_loop w entries).2 = entries.map (phase2_outcome w) := by
  intro entries
  induction entries with
  | nil => simp [finalize_loop]
  | cons entry rest ih =>
    rcases hf : finalize_entry w entry with ⟨t, r⟩
    rcases hrest : finalize_loop w rest with ⟨trest, crest⟩
    rw [hrest] at ih
    simp only at ih
    rcases r with e | cert
    · simp [finalize_loop, hf, hrest, ih, phase2_outcome]
    · simp [finalize_loop, hf, hrest, ih, phase2_outcome]

/-- `exceptIsOk` on a success. -/
@[simp] theorem exceptIsOk_ok {α : Type} (a : α) :
    exceptIsOk (Except.ok a : Except Err α) = true := rfl

/-- `exceptIsOk` on an error. -/
@[simp] theorem exceptIsOk_error {α : Type} (e : Err) :
    exceptIsOk (Except.error e : Except Err α) = false := rfl

/-- `Except.toOption` on a success. -/
@[simp] theorem toOption_ok {α : Type} (a : α) :
    (Except.ok a : Except Err α).toOption = some a := rfl

/-- `Except.toOption` on an error. -/
@[simp] theorem toOption_error {α : Type} (e : Err) :
    (Except.error e : Except Err α).toOption = none := rfl

/-- Each pending certificate is counted exactly once: either its
orchestration failed, or it was queued for phase two. -/
theorem orchestrate_partition_length (w : World) :
    ∀ pcs : List PendingCert,
      (pcs.filter (fun pc => !exceptIsOk (orchestrate_pending w pc).2)).length
        + (pcs.filterMap (fun pc => (orchestrate_pending w pc).2.toOption)).length
        = pcs.length := by
  intro pcs
  induction pcs with
  | nil => simp
  | cons pc rest ih =>
    rcases h : (orchestrate_pending w pc).2 with e | entry
    · simp [List.filter_cons, List.filterMap_cons, h, List.length_cons]
      omega
    · simp [List.filter_cons, List.filterMap_cons, h, List.length_cons]
      omega

/-- C5: the batch call `get_ordered_certificates` never aborts — it
returns one outcome per processed item (`length` equality) — and its
outcome list is exactly: a `cert: False` record for every item whose
setup/orchestration phase raised, followed by the phase-two outcome of
every successfully orchestrated item, each of which therefore reached
the finalize/issuance phase regardless of other items' failures. -/
theorem get_ordered_certificates_batch_isolation (w : World) (pcs : List PendingCert) :
    (get_ordered_certificates w pcs).2
        = (pcs.filter (fun pc => !exceptIsOk (orchestrate_pending w pc).2)).map
            (fun pc => ⟨none, pc⟩)
          ++ (pcs.filterMap (fun pc => (orchestrate_pending w pc).2.toOption)).map
              (phase2_outcome w)
    ∧ (get_ordered_certificates w pcs).2.length = pcs.length := by
  rcases h1 : orchestrate_loop w pcs with ⟨t1, pending, certs1⟩
  have ho := orchestrate_loop_outcomes w pcs
  rw [h1] at ho
  simp only at ho
  rcases h2 : finalize_loop w pending with ⟨t2, certs2⟩
  have hfl := finalize_loop_outcomes w pending
  rw [h2] at hfl
  simp only at hfl
  have hres : (get_ordered_certificates w pcs).2 = certs1 ++ certs2 := by
    simp [get_ordered_certificates, h1, h2]
  have hmain : (get_ordered_certificates w pcs).2
      = (pcs.filter (fun pc => !exceptIsOk (orchestrate_pending w pc).2)).map
          (fun pc => (⟨none, pc⟩ : Outcome))
        ++ (pcs.filterMap (fun pc => (orchestrate_pending w pc).2.toOption)).map
            (phase2_outcome w) := by
    rw [hres, ho.2, hfl, ho.1]
  refine ⟨hmain, ?_⟩
  rw [hmain]
  simp only [List.length_append, List.length_map]
  exact orchestrate_partition_length w pcs

/-!
Claim C7 — transport failures in single-item `get_ordered_certificate`.
-/

/-- A DNS oracle whose propagation wait raises the transport error. -/
def dnsWaitClientError : DnsOracle where
  create_txt_record := fun _ _ _ => .ok "chg"
  wait_for_dns_change := fun _ _ => .error .clientError
  delete_txt_record := fun _ _ _ _ => .ok ()

/-- A world in which the DNS provider fails while waiting for
propagation (during finalization). -/
def waitFailWorld : World :=
  { okWorld with dns := dnsWaitClientError }

/-- A sample pending certificate. -/
def pcEx : PendingCert := ⟨"cert1", "ext1", 1, "CSR", okAuthority⟩

/-- C7 (counterexample): a DNS-provider transport error (`ClientError`)
raised during the finalization stage propagates out of
`get_ordered_certificate` instead of yielding the boolean `False`
sentinel — the `except ClientError` clause only guards the
orchestration stage. -/
theorem get_ordered_certificate_transport_cex :
    (get_ordered_certificate waitFailWorld pcEx).2 = .error .clientError
    ∧ (get_ordered_certificate waitFailWorld pcEx).2 ≠ .ok none := by
  constructor
  · rfl
  · decide

/-- C7 (amended): a DNS-provider-layer (`ClientError`) failure raised
during the orchestration stage is caught and logged and
`get_ordered_certificate` returns the `False` sentinel; transport
failures in the finalization or issuance stages are not caught. -/
theorem get_ordered_certificate_orchestration_client_error (w : World) (pc : PendingCert)
    (s : Session) (oi : OrderInfo) (dp : DnsProviderConfig)
    (hsetup : (setup_acme_client w.config w.ca pc.authority).2 = .ok s)
    (hget : w.services.authorization_get pc.external_id = .ok oi)
    (hdns : w.services.dns_provider_get pc.dns_provider_id = .ok dp)
    (hprov : get_dns_provider dp.provider_type = .ok ())
    (hauth : (get_authorizations w.ca s oi.account_number w.dns oi.domains).2
        = .error .clientError) :
    (get_ordered_certificate w pc).2 = .ok none := by
  rcases hS : setup_acme_client w.config w.ca pc.authority with ⟨t0, rs⟩
  rw [hS] at hsetup
  simp only at hsetup
  subst hsetup
  rcases hA : get_authorizations w.ca s oi.account_number w.dns oi.domains with ⟨t1, ra⟩
  rw [hA] at hauth
  simp only at hauth
  subst hauth
  simp [get_ordered_certificate, hS, hget, hdns, hprov, hA]

/-- A DNS oracle whose TXT-record creation raises the transport error. -/
def dnsCreateClientError : DnsOracle where
  create_txt_record := fun _ _ _ => .error .clientError
  wait_for_dns_change := fun _ _ => .ok ()
  delete_txt_record := fun _ _ _ _ => .ok ()

/-- A world in which the DNS provider fails while creating TXT records
(during orchestration). -/
def createFailWorld : World :=
  { okWorld with dns := dnsCreateClientError }

/-- C7 (witness): the amended theorem applied to a concrete run whose
orchestration raises `ClientError`. -/
theorem get_ordered_certificate_orchestration_client_error_witness :
    (get_ordered_certificate createFailWorld pcEx).2 = .ok none :=
  get_ordered_certificate_orchestration_client_error createFailWorld pcEx ⟨"k"⟩
    ⟨some "123", ["example.com"]⟩ ⟨"cloudflare", "cf", []⟩ rfl rfl rfl rfl rfl

/-!
Claim C3 — ordering of the route53 misconfiguration check in
`create_certificate`.
-/

/-- A route53 provider whose credentials carry no account id. -/
def route53NoAccount : DnsProviderConfig := ⟨"route53", "r53", []⟩

/-- Issuer options selecting the misconfigured route53 provider. -/
def cexIssuerOptions : IssuerOptions :=
  ⟨okAuthority, false, some route53NoAccount, "example.com", none⟩

/-- C3 (counterexample): on a concrete invocation with a route53
provider lacking an account id, `create_certificate` does raise the
route53 misconfiguration error, but its trace already contains a CA
registration event — ACME client setup and CA registration happen
BEFORE the check, contradicting "before any CA call / no ACME client
setup or registration occurs first". -/
theorem create_certificate_route53_cex :
    (create_certificate okWorld "CSR" cexIssuerOptions).2
      = .error (.invalidConfiguration
          "Route53 DNS Provider r53 does not have an account number configured.")
    ∧ (create_certificate okWorld "CSR" cexIssuerOptions).1.any isCARegisterEvent
      = true := by
  constructor
  · rfl
  · rfl

/-- C3 (amended): whenever the ACME client setup succeeds and the
configured DNS provider is route53 with falsy credentials'
`account_id`, `create_certificate` raises the route53 misconfiguration
error before any DNS-provider record operation, challenge request,
issuance call or authorization-service creation — though after the
ACME client setup and CA registration. -/
theorem create_certificate_route53_before_dns (w : World) (csr : String)
    (io : IssuerOptions) (s : Session) (dp : DnsProviderConfig)
    (hsetup : (setup_acme_client w.config w.ca io.authority).2 = .ok s)
    (hdp : io.dns_provider = some dp)
    (himp : w.import_provider dp.provider_type = .ok ())
    (hpt : dp.provider_type = "route53")
    (hacct : isFalsy (lookupStr dp.credentials "account_id") = true) :
    (create_certificate w csr io).2
      = .error (.invalidConfiguration
          ("Route53 DNS Provider " ++ dp.name
            ++ " does not have an account number configured."))
    ∧ (create_certificate w csr io).1.filter
        (fun ev => isOrchestrationEvent ev || isAuthzCreateEvent ev) = [] := by
  rcases hS : setup_acme_client w.config w.ca io.authority with ⟨t0, rs⟩
  rw [hS] at hsetup
  simp only at hsetup
  subst hsetup
  have htr := setup_acme_client_trace_ca_only w.config w.ca io.authority
  rw [hS] at htr
  have ht0 : t0.filter (fun ev => isOrchestrationEvent ev || isAuthzCreateEvent ev) = [] := by
    rw [List.filter_eq_nil_iff]
    intro ev hev
    have h := htr ev hev
    simp [h.1, h.2]
  have hcond : (dp.provider_type == "route53"
      && isFalsy (lookupStr dp.credentials "account_id")) = true := by
    rw [hpt, hacct]
    rfl
  constructor
  · simp [create_certificate, hS, hdp, himp, hcond]
  · simp [create_certificate, hS, hdp, himp, hcond, List.filter_append, ht0,
      isOrchestrationEvent, isAuthzCreateEvent]
    exact fun a ha => htr a ha

/-- C3 (witness): the amended route53-check theorem applied to the
concrete misconfigured invocation. -/
theorem create_certificate_route53_before_dns_witness :
    (create_certificate okWorld "CSR" cexIssuerOptions).2
      = .error (.invalidConfiguration
          ("Route53 DNS Provider " ++ route53NoAccount.name
            ++ " does not have an account number configured."))
    ∧ (create_certificate okWorld "CSR" cexIssuerOptions).1.filter
        (fun ev => isOrchestrationEvent ev || isAuthzCreateEvent ev) = [] :=
  create_certificate_route53_before_dns okWorld "CSR" cexIssuerOptions ⟨"k"⟩
    route53NoAccount rfl rfl rfl rfl rfl

/-!
Claim C4 — configuration failures of `setup_acme_client`.
-/

/-- C4 (counterexample): an authority whose options string fails JSON
parsing raises the JSON decode error, not the invalid-authority error;
and an authority whose parsed options lack `acme_url` does not raise at
all — the call succeeds and its trace shows it proceeded to contact and
register with the CA using the app-config fallback URL. -/
theorem setup_acme_client_invalid_options_cex :
    (setup_acme_client okConfig okCA ⟨.malformed⟩).2 = .error .jsonDecodeError
    ∧ exceptIsOk (setup_acme_client okConfig okCA
        ⟨.parsed [("email", some "a@b.com")]⟩).2 = true
    ∧ (setup_acme_client okConfig okCA
        ⟨.parsed [("email", some "a@b.com")]⟩).1.any isCARegisterEvent = true := by
  refine ⟨rfl, rfl, rfl⟩

/-- C4 (amended): `setup_acme_client` raises the invalid-authority
error exactly for unset/empty options; an options string that fails to
parse as JSON raises the JSON decode error instead; and a missing
`acme_url` is not fatal — the directory URL used for the CA connection
falls back to the app config's value. -/
theorem setup_acme_client_error_behavior (cfg : AppConfig) (ca : CAOracle)
    (opts : List (String × Option String)) :
    setup_acme_client cfg ca ⟨.unset⟩
      = ([], .error (.invalidAuthority "Invalid authority. Options not set"))
    ∧ setup_acme_client cfg ca ⟨.malformed⟩ = ([], .error .jsonDecodeError)
    ∧ (setup_acme_client cfg ca ⟨.parsed opts⟩).1.head?
      = some (.caConnect (dictGet opts "acme_url" cfg.acme_directory_url)) := by
  refine ⟨rfl, rfl, ?_⟩
  unfold setup_acme_client
  rcases hc : ca.connect (dictGet opts "acme_url" cfg.acme_directory_url) with e | u
  · simp [hc]
  · rcases hr : ca.register (dictGet opts "email" cfg.acme_email) with e | uri
    · simp [hc, hr]
    · rcases ha : ca.agree_to_tos uri with e | u2
      · simp [hc, hr, ha]
      · simp [hc, hr, ha]

/-!
Claim C9 — the deferred (`create_immediately` falsy) path of
`create_certificate`.
-/

/-- C9: on the deferred path — once the ACME client setup, provider
requirement, module import and route53 check pass — the call returns
`(None, None, authorizationID)` where the id is the one the
authorization service returned for the single creation call it
received, made with the flattened domain list; and no DNS challenge
orchestration, TXT-record operation, finalization or issuance event
occurs in the invocation. -/
theorem create_certificate_deferred (w : World) (csr : String) (io : IssuerOptions)
    (s : Session) (dp : DnsProviderConfig) (authzId : Nat)
    (hci : io.create_immediately = false)
    (hsetup : (setup_acme_client w.config w.ca io.authority).2 = .ok s)
    (hdp : io.dns_provider = some dp)
    (himp : w.import_provider dp.provider_type = .ok ())
    (hr53 : (dp.provider_type == "route53"
        && isFalsy (lookupStr dp.credentials "account_id")) = false)
    (hcreate : w.services.authorization_create (lookupStr dp.credentials "account_id")
        (flatten_domains (get_domains io)) dp.provider_type = .ok authzId) :
    (create_certificate w csr io).2 = .ok (none, none, some authzId)
    ∧ (create_certificate w csr io).1.filter isAuthzCreateEvent
        = [.authzCreate (lookupStr dp.credentials "account_id")
            (flatten_domains (get_domains io)) dp.provider_type]
    ∧ (create_certificate w csr io).1.filter isOrchestrationEvent = [] := by
  rcases hS : setup_acme_client w.config w.ca io.authority with ⟨t0, rs⟩
  rw [hS] at hsetup
  simp only at hsetup
  subst hsetup
  have htr := setup_acme_client_trace_ca_only w.config w.ca io.authority
  rw [hS] at htr
  have ht0a : t0.filter isAuthzCreateEvent = [] := by
    rw [List.filter_eq_nil_iff]
    intro ev hev
    simp [(htr ev hev).2]
  have ht0o : t0.filter isOrchestrationEvent = [] := by
    rw [List.filter_eq_nil_iff]
    intro ev hev
    simp [(htr ev hev).1]
  refine ⟨?_, ?_, ?_⟩
  · simp [create_certificate, hS, hdp, himp, hr53, hci, hcreate]
  · simp [create_certificate, hS, hdp, himp, hr53, hci, hcreate, List.filter_append,
      ht0a, isAuthzCreateEvent]
  · simp [create_certificate, hS, hdp, himp, hr53, hci, hcreate, List.filter_append,
      ht0o, isOrchestrationEvent]

/-- The cloudflare provider fixture used by the deferred-path witness. -/
def cfProvider : DnsProviderConfig := ⟨"cloudflare", "cf", []⟩

/-- Issuer options for the deferred-path witness. -/
def deferredOptions : IssuerOptions :=
  ⟨okAuthority, false, some cfProvider, "example.com", none⟩

/-- C9 (witness): the deferred-path theorem applied to a concrete
invocation; the authorization service returns id 42. -/
theorem create_certificate_deferred_witness :
    (create_certificate okWorld "CSR" deferredOptions).2 = .ok (none, none, some 42)
    ∧ (create_certificate okWorld "CSR" deferredOptions).1.filter isAuthzCreateEvent
        = [.authzCreate (lookupStr cfProvider.credentials "account_id")
            (flatten_domains (get_domains deferredOptions)) cfProvider.provider_type]
    ∧ (create_certificate okWorld "CSR" deferredOptions).1.filter
        isOrchestrationEvent = [] :=
  create_certificate_deferred okWorld "CSR" deferredOptions ⟨"k"⟩ cfProvider 42
    rfl rfl rfl rfl rfl rfl

end LemurAcme
